import Mathlib

/-!
Verification of the forecasting core of the sales-analytics dashboard
(`src/ml/forecasting.py` and `src/analytics/forecasting.py`).

The pandas/Prophet pipeline is shallowly embedded:

* dates are day numbers (`Int`, as produced by `pd.to_datetime` and consumed
  positionally);
* the value column after `pd.to_numeric(..., errors='coerce')` is an
  `Option ℚ` (`none` plays the role of `NaN`);
* Prophet itself is treated as an opaque oracle (the spec declares the model
  a black-box regression library), while everything the repository's own code
  computes — null dropping, rolling statistics, quantiles, filters, guards,
  summary statistics, orchestration control flow — is translated directly.

The one numerical liberty: pandas compares `y > rolling_mean + 2*rolling_std`
where `rolling_std` is a square root.  To stay inside decidable rational
arithmetic the embedded flag uses the algebraically equivalent squared form
`y - m > 0 ∧ (y - m)^2 > 4*v` (`v` the rolling sample variance); theorem
`spike_flag_iff_spec` proves this equal to the square-root formula over `ℝ`.
-/

/-- Days since the Unix epoch (what `pd.to_datetime` produces, compared and
sorted exactly like the underlying timestamps). -/
abbrev Date := Int

/-- A raw input row after the coercion step of `prepare_data`:
`ds = pd.to_datetime(df[date_col])`, `y = pd.to_numeric(df[value_col],
errors='coerce')`; a non-numeric entry has become `none` (NaN). -/
structure RawRow where
  ds : Date
  y : Option ℚ
deriving DecidableEq, Repr

/-- A row of the prepared Prophet frame (`ds`, `y`, optional `is_spike`).
When the frame has no `is_spike` column the flag is uniformly `false`. -/
structure PRow where
  ds : Date
  y : ℚ
  is_spike : Bool
deriving DecidableEq, Repr

instance : Inhabited PRow := ⟨⟨0, 0, false⟩⟩

/-- The prepared frame: its rows plus whether the `is_spike` column exists. -/
structure PreparedFrame where
  rows : List PRow
  hasSpikeCol : Bool
deriving DecidableEq, Repr

/-- Arithmetic mean, `np.mean` / `Series.mean` (0 on the empty list, where
pandas would give NaN; no claim touches the empty case). -/
def meanQ (l : List ℚ) : ℚ := l.sum / l.length

/-- Sample variance with `ddof = 1` (the square of `Series.std`);
`0` outside the `≥ 2`-element domain where pandas yields NaN. -/
def sampleVar (l : List ℚ) : ℚ :=
  if l.length ≤ 1 then 0
  else ((l.map (fun x => (x - meanQ l) ^ 2)).sum) / ((l.length : ℚ) - 1)

/-- The centred 7-point rolling window of `Series.rolling(window=7,
center=True)` at position `i`: positions `i-3 … i+3`, full windows only
(`min_periods` defaults to the window size, so edges are NaN = `none`). -/
def window7 (ys : List ℚ) (i : Nat) : Option (List ℚ) :=
  if 3 ≤ i ∧ i + 3 < ys.length then some ((ys.drop (i - 3)).take 7) else none

/-- `rolling_mean` after `fillna(y.mean())`: the rolling mean where defined,
the global mean at the boundary gaps. -/
def rollingMeanFilled (ys : List ℚ) (i : Nat) : ℚ :=
  ((window7 ys i).map meanQ).getD (meanQ ys)

/-- The square of `rolling_std` after `fillna(y.std())`: rolling sample
variance where defined, global sample variance at the boundary gaps. -/
def rollingVarFilled (ys : List ℚ) (i : Nat) : ℚ :=
  ((window7 ys i).map sampleVar).getD (sampleVar ys)

/-- The spike test `y > rolling_mean + 2 * rolling_std` of `prepare_data`,
written in the square-root-free form (see `spike_flag_iff_spec`). -/
def spike_flag (ys : List ℚ) (i : Nat) : Bool :=
  let y := ys.getD i 0
  let m := rollingMeanFilled ys i
  decide (m < y ∧ 4 * rollingVarFilled ys i < (y - m) ^ 2)

/-- The spec's reading of the same test, with a genuine square root:
value strictly above `rolling_mean + 2 * rolling_std`. -/
noncomputable def spec_spike_exceeds (ys : List ℚ) (i : Nat) : Prop :=
  (rollingMeanFilled ys i : ℝ) + 2 * Real.sqrt (rollingVarFilled ys i)
    < ((ys.getD i 0 : ℚ) : ℝ)

/-- `dropna` after the coercion: rows whose value failed numeric coercion
(`none`/NaN) are removed, the rest keep their date and numeric value. -/
def dropna (df : List RawRow) : List (Date × ℚ) :=
  df.filterMap (fun r => r.y.map (fun v => (r.ds, v)))

/-- Rows of a frame that never received an `is_spike` column. -/
def plainRows (pts : List (Date × ℚ)) : List PRow :=
  pts.map (fun p => ⟨p.1, p.2, false⟩)

/-- The spike-detection block of `prepare_data`: every row is kept and gets
its `is_spike` flag from the (filled) rolling statistics. -/
def spikeStep (pts : List (Date × ℚ)) : List PRow :=
  pts.enum.map (fun p => ⟨p.2.1, p.2.2, spike_flag (pts.map Prod.snd) p.1⟩)

/-- Insertion into a list sorted by date. -/
def insertByDs (r : PRow) : List PRow → List PRow
  | [] => [r]
  | x :: xs => if r.ds ≤ x.ds then r :: x :: xs else x :: insertByDs r xs

/-- `prophet_df.sort_values('ds')`: sort ascending by date. -/
def sortByDs (l : List PRow) : List PRow := l.foldr insertByDs []

/-- Insertion into a sorted list of values. -/
def insertQ (x : ℚ) : List ℚ → List ℚ
  | [] => [x]
  | a :: as => if x ≤ a then x :: a :: as else a :: insertQ x as

/-- Ascending sort of a value list (used by the quantile computation). -/
def sortQ (l : List ℚ) : List ℚ := l.foldr insertQ []

/-- `Series.quantile(q)` with the default linear interpolation: on the
sorted values `v₀ … vₙ₋₁`, position `h = q·(n−1)`, result
`v_lo + (h − lo)·(v_(lo+1) − v_lo)` with `lo = ⌊h⌋`. -/
def quantile (l : List ℚ) (q : ℚ) : ℚ :=
  let s := sortQ l
  let h : ℚ := q * ((s.length : ℚ) - 1)
  let lo : Nat := (⌊h⌋).toNat
  s.getD lo 0 + (h - (lo : ℚ)) * (s.getD (lo + 1) 0 - s.getD lo 0)

/-- `Q1 - 3*IQR`, the lower bound of the outlier filter. -/
def iqr_lower (ys : List ℚ) : ℚ :=
  quantile ys (1/4) - 3 * (quantile ys (3/4) - quantile ys (1/4))

/-- `Q3 + 3*IQR`, the upper bound of the outlier filter. -/
def iqr_upper (ys : List ℚ) : ℚ :=
  quantile ys (3/4) + 3 * (quantile ys (3/4) - quantile ys (1/4))

/-- The IQR outlier filter of `prepare_data`: keep rows with
`lower_bound ≤ y ≤ upper_bound` (both inclusive, as in the source). -/
def outlierFilter (rows : List PRow) : List PRow :=
  rows.filter (fun r =>
    decide (iqr_lower (rows.map PRow.y) ≤ r.y) &&
    decide (r.y ≤ iqr_upper (rows.map PRow.y)))

/-- The frame after the (conditional) spike-detection block of
`prepare_data`: flags are added only when `detect_spikes` holds and more
than 30 rows survived `dropna` (`len(prophet_df) > 30`, strict). -/
def spikeStage (df : List RawRow) (detect_spikes : Bool) : List PRow :=
  if detect_spikes && decide (30 < (dropna df).length) then spikeStep (dropna df)
  else plainRows (dropna df)

/-- `SalesForecaster.prepare_data` (`src/ml/forecasting.py`): numeric
coercion, `dropna`, spike detection when `detect_spikes` and more than 30
rows remain, IQR outlier removal when `remove_outliers` and more than 30
rows remain, then sort by date.  The argument order matches the source
(`remove_outliers` before `detect_spikes`); the spike block runs first. -/
def prepare_data (df : List RawRow) (remove_outliers : Bool := true)
    (detect_spikes : Bool := true) : PreparedFrame :=
  let spiked := spikeStage df detect_spikes
  let kept :=
    if remove_outliers && decide (30 < spiked.length) then outlierFilter spiked
    else spiked
  ⟨sortByDs kept, detect_spikes && decide (30 < (dropna df).length)⟩

/-- A row of Prophet's forecast output (`ds`, `yhat`, bounds, `trend`). -/
structure FRow where
  ds : Date
  yhat : ℚ
  yhat_lower : ℚ
  yhat_upper : ℚ
  trend : ℚ
deriving DecidableEq, Repr

instance : Inhabited FRow := ⟨⟨0, 0, 0, 0, 0⟩⟩

/-- Hyperparameters passed to `SalesForecaster.train`. -/
structure TrainParams where
  seasonality_mode : String
  changepoint_prior_scale : ℚ
  seasonality_prior_scale : ℚ
  add_country_holidays : Option String
deriving DecidableEq, Repr

/-- `pandas .dt.dayofweek` (Monday = 0) for an epoch day number
(1970-01-01 was a Thursday). -/
def dayOfWeek (d : Date) : Int := (d + 3) % 7

/-- `df.groupby('dow')['is_spike'].mean().to_dict()`: mean spike rate per
day of week, keyed only by the days that occur in the training data. -/
def spike_by_dow (rows : List PRow) : List (Int × ℚ) :=
  (List.range 7).filterMap (fun d =>
    let grp := rows.filter (fun r => dayOfWeek r.ds == (d : Int))
    if grp.isEmpty then none
    else some ((d : Int), meanQ (grp.map (fun r => if r.is_spike then 1 else 0))))

/-- Everything the fitted Prophet model closes over: the hyperparameters,
the training frame, whether the `is_spike` regressor was added and the
day-of-week spike patterns retained for future imputation. -/
structure ModelData where
  params : TrainParams
  traindf : List PRow
  hasSpikeReg : Bool
  spikePatterns : List (Int × ℚ)
deriving DecidableEq, Repr

/-- The external forecasting library (Prophet), per the spec a black-box
regression oracle: whether `fit` succeeds, whether `predict` succeeds, and
the forecast table it returns for a fitted model, horizon and frequency
(the future-frame construction and spike-regressor imputation feed this
call and are absorbed into it, since its output is opaque anyway). -/
structure Oracle where
  fitOk : ModelData → Bool
  predictOk : ModelData → Nat → String → Bool
  predictRows : ModelData → Nat → String → List FRow

/-- Error taxonomy of the subsystem (§7 of the spec).  `insufficientData`
is listed so claims about it are statable; whether any code path actually
produces it is exactly what the theorems settle. -/
inductive Err where
  | invalidState
  | fitError
  | modelError
  | indexError
  | insufficientData
  | runtimeError
deriving DecidableEq, Repr

/-- The mutable state of a `SalesForecaster` instance
(`self.model`, `self.forecast_df`, `self.trained`). -/
structure Forecaster where
  model : Option ModelData
  forecast_df : Option (List FRow)
  trained : Bool
deriving DecidableEq, Repr

/-- `SalesForecaster.__init__`. -/
def SalesForecaster.init : Forecaster := ⟨none, none, false⟩

/-- `SalesForecaster.train`: build the model (holidays are best-effort and
never fail the call), add the spike regressor and day-of-week patterns when
the frame carries `is_spike`, then fit.  Returns the state as left by the
call together with its outcome: on a fit failure `self.model` is already
set but `self.trained` stays as it was (the exception re-raises). -/
def SalesForecaster.train (o : Oracle) (p : TrainParams) (df : PreparedFrame)
    (s : Forecaster) : Forecaster × Except Err Unit :=
  let patterns := if df.hasSpikeCol then spike_by_dow df.rows else []
  let md : ModelData := ⟨p, df.rows, df.hasSpikeCol, patterns⟩
  if o.fitOk md then
    ({ s with model := some md, trained := true }, .ok ())
  else
    ({ s with model := some md }, .error .fitError)

/-- `SalesForecaster.predict`: guarded by `self.trained` before anything
else happens; on success stores the forecast in `self.forecast_df`.  The
`model = none` arm is unreachable once trained (Python would raise an
`AttributeError` on the bare `None`). -/
def SalesForecaster.predict (o : Oracle) (periods : Nat) (freq : String)
    (s : Forecaster) : Forecaster × Except Err (List FRow) :=
  if s.trained = false then (s, .error .invalidState)
  else
    match s.model with
    | none => (s, .error .invalidState)
    | some md =>
      if o.predictOk md periods freq then
        let rows := o.predictRows md periods freq
        ({ s with forecast_df := some rows }, .ok rows)
      else (s, .error .modelError)

/-- Minimum of a value list (`Series.min`). -/
def minQ (l : List ℚ) : ℚ :=
  match l with
  | [] => 0
  | x :: xs => xs.foldl min x

/-- Maximum of a value list (`Series.max`). -/
def maxQ (l : List ℚ) : ℚ :=
  match l with
  | [] => 0
  | x :: xs => xs.foldl max x

/-- The accuracy metrics dict of `calculate_accuracy`. -/
structure Accuracy where
  mae : ℚ
  rmse : ℝ
  mape : ℚ
  accuracy_percent : ℚ

/-- The summary dict of `get_forecast_summary`; `accuracy_metrics` is the
key the revenue orchestrator adds afterwards. -/
structure Summary where
  avg_predicted_value : ℚ
  total_predicted_value : ℚ
  min_predicted_value : ℚ
  max_predicted_value : ℚ
  avg_uncertainty : ℚ
  trend_direction : String
  accuracy_metrics : Option Accuracy

/-- The trailing window `forecast_df[ds > ds.iloc[-1] - 30 days]` used by
`get_forecast_summary`. -/
def futureWindow (f : List FRow) : List FRow :=
  f.filter (fun r => decide ((f.getLastD default).ds - 30 < r.ds))

/-- `SalesForecaster.get_forecast_summary`: fails while no forecast exists;
on an empty forecast the `iloc[-1]` lookup itself raises; otherwise reduces
the trailing 30-day window to the summary statistics. -/
def get_forecast_summary (s : Forecaster) : Except Err Summary :=
  match s.forecast_df with
  | none => .error .invalidState
  | some f =>
    match f with
    | [] => .error .indexError
    | _ :: _ =>
      let w := futureWindow f
      .ok { avg_predicted_value := meanQ (w.map FRow.yhat)
            total_predicted_value := (w.map FRow.yhat).sum
            min_predicted_value := minQ (w.map FRow.yhat)
            max_predicted_value := maxQ (w.map FRow.yhat)
            avg_uncertainty := meanQ (w.map (fun r => r.yhat_upper - r.yhat_lower))
            trend_direction :=
              if (w.headD default).trend < (w.getLastD default).trend
              then "increasing" else "decreasing"
            accuracy_metrics := none }

/-- `SalesForecaster.calculate_accuracy`: inner-join the actuals with the
forecast on `ds` (left order, first match), then MAE/RMSE/MAPE.  Division
by a zero actual follows Lean's `x / 0 = 0` rather than IEEE `inf`; the
spec flags zero actuals as a caller obligation and no claim touches them. -/
noncomputable def calculate_accuracy (s : Forecaster)
    (actual : List (Date × ℚ)) : Except Err Accuracy :=
  match s.forecast_df with
  | none => .error .invalidState
  | some f =>
    let merged := actual.filterMap (fun a =>
      (f.find? (fun r => r.ds == a.1)).map (fun r => (a.2, r.yhat)))
    let mae := meanQ (merged.map (fun p => |p.1 - p.2|))
    let mse := meanQ (merged.map (fun p => (p.1 - p.2) ^ 2))
    let mape := meanQ (merged.map (fun p => |(p.1 - p.2) / p.1|)) * 100
    .ok ⟨mae, Real.sqrt (mse : ℝ), mape, 100 - mape⟩

/-- A row of the renamed output frame of `get_forecast_dataframe`. -/
structure OutRow where
  date : Date
  predicted : ℚ
  lower_bound : ℚ
  upper_bound : ℚ
  trend : ℚ
deriving DecidableEq, Repr

/-- Column selection and renaming at the end of `get_forecast_dataframe`. -/
def toOutRow (r : FRow) : OutRow :=
  ⟨r.ds, r.yhat, r.yhat_lower, r.yhat_upper, r.trend⟩

/-- `SalesForecaster.get_forecast_dataframe`: with `future_only` the cut
sits at the date of the 31st-from-last row when more than 30 rows exist,
else at the first row's date (`iloc[0]`, raising on an empty frame). -/
def get_forecast_dataframe (s : Forecaster) (future_only : Bool) :
    Except Err (List OutRow) :=
  match s.forecast_df with
  | none => .error .invalidState
  | some rows =>
    if future_only then
      match rows with
      | [] => .error .indexError
      | _ :: _ =>
        let last_historical_date :=
          if 30 < rows.length then (rows.getD (rows.length - 31) default).ds
          else (rows.headD default).ds
        .ok ((rows.filter (fun r => decide (last_historical_date < r.ds))).map toOutRow)
    else .ok (rows.map toOutRow)

/-- `prophet_df['ds'].max()` (junk 0 on the empty frame, where pandas
yields NaT; the orchestrators only reach it with nonempty data). -/
def maxDsOf (rows : List PRow) : Date :=
  match rows with
  | [] => 0
  | r :: rs => rs.foldl (fun m x => max m x.ds) r.ds

/-- The default hyperparameters of `SalesForecaster.train`, used by the
product and country orchestrators. -/
def defaultTrainParams : TrainParams := ⟨"multiplicative", 8/100, 8, some "UK"⟩

/-- The production-tuned hyperparameters hardcoded inside
`get_revenue_forecast` (its `seasonality_mode` argument is ignored). -/
def revenueTrainParams : TrainParams := ⟨"additive", 18/100, 12, some "UK"⟩

/-- The backtest hyperparameters hardcoded inside `get_forecast_comparison`. -/
def comparisonTrainParams : TrainParams := ⟨"multiplicative", 30/100, 5, some "UK"⟩

/-- The `not use_ensemble` body of `analytics.get_revenue_forecast`:
prepare (no outlier removal, no spike detection), train with the tuned
parameters, predict, summarize, attach accuracy on the training data,
and optionally cut to strictly-future rows. -/
noncomputable def revenueProphetPath (o : Oracle) (revenue_df : List RawRow)
    (periods : Nat) (freq : String) (include_history : Bool) :
    Except Err (Option (List FRow × Summary)) :=
    let prophet_df := prepare_data revenue_df false false
    match SalesForecaster.train o revenueTrainParams prophet_df SalesForecaster.init with
    | (_, .error e) => .error e
    | (s1, .ok _) =>
      match SalesForecaster.predict o periods freq s1 with
      | (_, .error e) => .error e
      | (s2, .ok forecast_rows) =>
        match get_forecast_summary s2 with
        | .error e => .error e
        | .ok summary =>
          match calculate_accuracy s2 (prophet_df.rows.map (fun r => (r.ds, r.y))) with
          | .error e => .error e
          | .ok acc =>
            let summary2 := { summary with accuracy_metrics := some acc }
            let out :=
              if include_history then forecast_rows
              else forecast_rows.filter (fun r => decide (maxDsOf prophet_df.rows < r.ds))
            .ok (some (out, summary2))

/-- `analytics.get_revenue_forecast`
(`src/analytics/forecasting.py`): fewer than 30 rows only logs a warning —
there is no early exit; `use_ensemble` is overwritten to `False` before it
is consulted, so every call takes `revenueProphetPath`.  The `.ok none`
arm mirrors the implicit `return None` were the ensemble branch ever
taken. -/
noncomputable def get_revenue_forecast (o : Oracle) (revenue_df : List RawRow)
    (periods : Nat) (freq : String) (include_history : Bool)
    (seasonality_mode : String) (use_ensemble : Bool) :
    Except Err (Option (List FRow × Summary)) :=
  let ue := if use_ensemble then false else use_ensemble
  if ue then .ok none
  else revenueProphetPath o revenue_df periods freq include_history

/-- Result of the product/country orchestrators: either the structured
`(empty frame, {'error': 'Insufficient historical data'})` pair or a
forecast with its summary. -/
inductive SliceResult where
  | insufficient
  | forecast (rows : List FRow) (s : Summary)

/-- `analytics.get_product_forecast`: fewer than 30 fetched (grouped, hence
distinct-date) rows short-circuits to the structured insufficient-data
result before any model is built; otherwise the default pipeline runs and
the output is cut to strictly-future rows. -/
def get_product_forecast (o : Oracle) (df : List RawRow) (periods : Nat)
    (freq : String) : Except Err SliceResult :=
  if df.length < 30 then .ok .insufficient
  else
    let prophet_df := prepare_data df
    match SalesForecaster.train o defaultTrainParams prophet_df SalesForecaster.init with
    | (_, .error e) => .error e
    | (s1, .ok _) =>
      match SalesForecaster.predict o periods freq s1 with
      | (_, .error e) => .error e
      | (s2, .ok forecast_rows) =>
        match get_forecast_summary s2 with
        | .error e => .error e
        | .ok summary =>
          .ok (.forecast
            (forecast_rows.filter (fun r => decide (maxDsOf prophet_df.rows < r.ds)))
            summary)

/-- `analytics.get_country_forecast`: identical control flow to the product
orchestrator (only the SQL slice differs). -/
def get_country_forecast (o : Oracle) (df : List RawRow) (periods : Nat)
    (freq : String) : Except Err SliceResult :=
  if df.length < 30 then .ok .insufficient
  else
    let prophet_df := prepare_data df
    match SalesForecaster.train o defaultTrainParams prophet_df SalesForecaster.init with
    | (_, .error e) => .error e
    | (s1, .ok _) =>
      match SalesForecaster.predict o periods freq s1 with
      | (_, .error e) => .error e
      | (s2, .ok forecast_rows) =>
        match get_forecast_summary s2 with
        | .error e => .error e
        | .ok summary =>
          .ok (.forecast
            (forecast_rows.filter (fun r => decide (maxDsOf prophet_df.rows < r.ds)))
            summary)

/-- A row of the comparison frame of `get_forecast_comparison`.  The
actual revenue comes from raw rows, so a NaN (`none`) propagates through
`difference` and `difference_pct` as it would in pandas. -/
structure CompRow where
  date : Date
  actual_revenue : Option ℚ
  predicted_revenue : ℚ
  difference : Option ℚ
  difference_pct : Option ℚ

/-- `analytics.get_forecast_comparison`: below 60 rows return an empty
frame; split off the last 30 rows as a holdout; `use_ensemble` is
overwritten to `False` before it is consulted; train on the prefix with the
backtest parameters, predict 30 days, and inner-join the holdout with the
strictly-future predictions.  The `runtimeError` arm mirrors the
`NameError` on `forecast_future` were the ensemble branch ever taken. -/
def get_forecast_comparison (o : Oracle) (revenue_df : List RawRow)
    (use_ensemble : Bool) : Except Err (List CompRow) :=
  if revenue_df.length < 60 then .ok []
  else
    let split_point := revenue_df.length - 30
    let train_df := revenue_df.take split_point
    let test_df := revenue_df.drop split_point
    let ue := if use_ensemble then false else use_ensemble
    if ue then .error .runtimeError
    else
      let prophet_train := prepare_data train_df false false
      match SalesForecaster.train o comparisonTrainParams prophet_train SalesForecaster.init with
      | (_, .error e) => .error e
      | (s1, .ok _) =>
        match SalesForecaster.predict o 30 "D" s1 with
        | (_, .error e) => .error e
        | (_, .ok forecast_rows) =>
          let last_train_date := maxDsOf prophet_train.rows
          let forecast_future :=
            forecast_rows.filter (fun r => decide (last_train_date < r.ds))
          .ok (test_df.filterMap (fun t =>
            (forecast_future.find? (fun r => r.ds == t.ds)).map (fun r =>
              ⟨t.ds, t.y, r.yhat, t.y.map (fun v => v - r.yhat),
                t.y.map (fun v => (v - r.yhat) / v * 100)⟩)))

/-!  A pandas dataframe as the caller of `train` sees it: named columns
over a shared object.  Cells are day numbers, numeric values or 0/1 flags,
all represented as `Int` (the aliasing question is independent of the cell
type).  Column assignment (`df['dow'] = ...`) mutates the shared object;
`df.drop(...)` without `inplace` returns a fresh copy, leaving the shared
object untouched.  -/

/-- A dataframe object: ordered named columns. -/
abbrev ColFrame := List (String × List Int)

/-- `col in df.columns`. -/
def hasColumn (f : ColFrame) (c : String) : Bool := f.any (fun p => p.1 == c)

/-- `df[col] = values`: replace the column in place, or append it. -/
def setCol (f : ColFrame) (c : String) (v : List Int) : ColFrame :=
  if hasColumn f c then f.map (fun p => if p.1 == c then (p.1, v) else p)
  else f ++ [(c, v)]

/-- `df.drop(col, axis=1)`: a fresh frame without the column. -/
def dropCol (f : ColFrame) (c : String) : ColFrame :=
  f.filter (fun p => !(p.1 == c))

/-- `df[col]` (empty if absent). -/
def getCol (f : ColFrame) (c : String) : List Int :=
  (((f.find? (fun p => p.1 == c)).map Prod.snd)).getD []

/-- The caller's dataframe object after `SalesForecaster.train` returns:
when `is_spike` is present the source executes `df['dow'] = df['ds']
.dt.dayofweek` — an in-place mutation of the shared object — and then
`df = df.drop('dow', axis=1)`, which only rebinds the *local* name to a
copy, so the caller's object keeps the added `dow` column. -/
def train_input_frame_after (df : ColFrame) : ColFrame :=
  if hasColumn df "is_spike" then
    setCol df "dow" ((getCol df "ds").map dayOfWeek)
  else df

/-- The frame actually passed to `self.model.fit(df)` at the end of
`train`: the local name, rebound to the dropped copy. -/
def train_fit_frame (df : ColFrame) : ColFrame :=
  if hasColumn df "is_spike" then
    dropCol (setCol df "dow" ((getCol df "ds").map dayOfWeek)) "dow"
  else df

/-- A method call on a `SalesForecaster` instance, for reasoning about the
states reachable through any call sequence. -/
inductive Op where
  | trainOp (p : TrainParams) (df : PreparedFrame)
  | predictOp (periods : Nat) (freq : String)
  | summaryOp
  | accuracyOp (actual : List (Date × ℚ))
  | getDfOp (future_only : Bool)

/-- The state after one method call (summary/accuracy/getter never write
`self`; a failed call leaves exactly the partial writes the source made
before raising). -/
def step (o : Oracle) (s : Forecaster) : Op → Forecaster
  | .trainOp p df => (SalesForecaster.train o p df s).1
  | .predictOp periods freq => (SalesForecaster.predict o periods freq s).1
  | .summaryOp => s
  | .accuracyOp _ => s
  | .getDfOp _ => s

/-- The state after a sequence of method calls. -/
def runOps (o : Oracle) (s : Forecaster) (ops : List Op) : Forecaster :=
  ops.foldl (step o) s

/-- A concrete oracle whose model always fits and predicts a fixed one-row
forecast; used to instantiate hypotheses at concrete inputs. -/
def okOracle : Oracle :=
  ⟨fun _ => true, fun _ _ _ => true, fun _ _ _ => [⟨100, 5, 4, 6, 1⟩]⟩

/-- A concrete oracle whose fit always fails, separating "the orchestrator
reached model fitting" from "the orchestrator returned early". -/
def fitFailOracle : Oracle :=
  ⟨fun _ => false, fun _ _ _ => true, fun _ _ _ => []⟩

/-- 29 distinct dates of history (below the 30-date minimum). -/
def df29 : List RawRow :=
  (List.range 29).map (fun n => ⟨(n : Int), some ((n : ℚ) + 1)⟩)

/-- Exactly 30 clean rows, flat at 0 except a clear spike of 1000 on day
15 (well inside the centred 7-point window). -/
def df30spike : List RawRow :=
  (List.range 30).map (fun n => ⟨(n : Int), some (if n = 15 then (1000 : ℚ) else 0)⟩)

/-- The same shape with 31 rows, clearing the strict `> 30` gate. -/
def df31spike : List RawRow :=
  (List.range 31).map (fun n => ⟨(n : Int), some (if n = 15 then (1000 : ℚ) else 0)⟩)

/-- Exactly 30 clean rows, flat at 0 except an extreme value of 100 on the
last day: Q1 = Q3 = 0, so 100 lies far outside `[Q1 - 3*IQR, Q3 + 3*IQR]`. -/
def df30out : List RawRow :=
  (List.range 30).map (fun n => ⟨(n : Int), some (if n = 29 then (100 : ℚ) else 0)⟩)

/-- A one-row forecast table. -/
def fRow1 : FRow := ⟨100, 5, 4, 6, 1⟩

/-- A three-row forecast table with strictly increasing dates. -/
def rows3 : List FRow := [⟨1, 1, 0, 2, 1⟩, ⟨2, 2, 1, 3, 2⟩, ⟨3, 3, 2, 4, 3⟩]

/-- A prepared frame, as the caller of `train` holds it, carrying the
`is_spike` column. -/
def spikeColFrame : ColFrame :=
  [("ds", [0, 1]), ("y", [10, 20]), ("is_spike", [0, 1])]





/-! ### Helper lemmas -/

theorem sampleVar_nonneg (l : List ℚ) : 0 ≤ sampleVar l := by
  unfold sampleVar
  split
  · exact le_refl 0
  · rename_i h
    apply div_nonneg
    · apply List.sum_nonneg
      intro x hx
      obtain ⟨a, _, rfl⟩ := List.mem_map.mp hx
      positivity
    · have h2 : 2 ≤ l.length := by omega
      have h2Q : (2 : ℚ) ≤ (l.length : ℚ) := by exact_mod_cast h2
      linarith

theorem rollingVarFilled_nonneg (ys : List ℚ) (i : Nat) :
    0 ≤ rollingVarFilled ys i := by
  unfold rollingVarFilled
  cases h : window7 ys i with
  | none => simpa [h] using sampleVar_nonneg ys
  | some w => simpa [h] using sampleVar_nonneg w

/-- Bridge between the rational squared form used by the embedded
`spike_flag` and the square-root comparison the source performs. -/
theorem spike_flag_iff_spec (ys : List ℚ) (i : Nat) :
    spike_flag ys i = true ↔ spec_spike_exceeds ys i := by
  have hv : (0 : ℝ) ≤ (rollingVarFilled ys i : ℝ) := by
    exact_mod_cast rollingVarFilled_nonneg ys i
  unfold spike_flag spec_spike_exceeds
  rw [decide_eq_true_iff]
  set y : ℚ := ys.getD i 0 with hy
  set m : ℚ := rollingMeanFilled ys i with hm
  set v : ℚ := rollingVarFilled ys i with hvdef
  constructor
  · rintro ⟨h1, h2⟩
    have h1R : (m : ℝ) < (y : ℝ) := by exact_mod_cast h1
    have h2R : 4 * (v : ℝ) < ((y : ℝ) - m) ^ 2 := by exact_mod_cast h2
    have hs : Real.sqrt (4 * v) < (y : ℝ) - m := by
      have hstep := Real.sqrt_lt_sqrt (by linarith) h2R
      rwa [Real.sqrt_sq (by linarith)] at hstep
    have h4 : Real.sqrt (4 * (v : ℝ)) = 2 * Real.sqrt v := by
      rw [show (4 : ℝ) * v = 2 ^ 2 * v by ring, Real.sqrt_mul (by positivity),
        Real.sqrt_sq (by norm_num)]
    rw [h4] at hs
    linarith
  · intro h
    have hsq : (0 : ℝ) ≤ Real.sqrt (v : ℝ) := Real.sqrt_nonneg _
    have h1R : (m : ℝ) < (y : ℝ) := by nlinarith
    have h2R : 4 * (v : ℝ) < ((y : ℝ) - m) ^ 2 := by
      have hyd : 2 * Real.sqrt (v : ℝ) < (y : ℝ) - m := by linarith
      have hss := Real.sq_sqrt hv
      nlinarith
    exact ⟨by exact_mod_cast h1R, by exact_mod_cast h2R⟩

theorem mem_insertByDs {x r : PRow} {l : List PRow} :
    x ∈ insertByDs r l ↔ x = r ∨ x ∈ l := by
  induction l with
  | nil => simp [insertByDs]
  | cons a as ih =>
    unfold insertByDs
    split
    · simp
    · simp [ih]
      tauto

theorem mem_sortByDs {x : PRow} {l : List PRow} :
    x ∈ sortByDs l ↔ x ∈ l := by
  induction l with
  | nil => simp [sortByDs]
  | cons a as ih =>
    simp only [sortByDs, List.foldr_cons] at *
    rw [mem_insertByDs, ih]
    simp

theorem spikeStep_length (pts : List (Date × ℚ)) :
    (spikeStep pts).length = pts.length := by
  simp [spikeStep]

theorem spikeStage_length (df : List RawRow) (d : Bool) :
    (spikeStage df d).length = (dropna df).length := by
  unfold spikeStage
  split
  · exact spikeStep_length _
  · simp [plainRows]

theorem train_error_shape (o : Oracle) (p : TrainParams) (df : PreparedFrame)
    (s : Forecaster) (e : Err) :
    (SalesForecaster.train o p df s).2 = .error e → e = .fitError := by
  intro h
  simp only [SalesForecaster.train] at h
  split at h
  all_goals split at h
  all_goals simp_all

theorem predict_error_shape (o : Oracle) (periods : Nat) (freq : String)
    (s : Forecaster) (e : Err) :
    (SalesForecaster.predict o periods freq s).2 = .error e →
      e = .invalidState ∨ e = .modelError := by
  unfold SalesForecaster.predict
  split
  · intro h
    left
    simpa using h.symm
  · split
    · intro h
      left
      simpa using h.symm
    · split
      · intro h
        simp at h
      · intro h
        right
        simpa using h.symm

theorem summary_error_shape (s : Forecaster) (e : Err) :
    get_forecast_summary s = .error e → e = .invalidState ∨ e = .indexError := by
  unfold get_forecast_summary
  split
  · intro h
    left
    simpa using h.symm
  · split
    · intro h
      right
      simpa using h.symm
    · intro h
      simp at h

theorem accuracy_error_shape (s : Forecaster) (actual : List (Date × ℚ)) (e : Err) :
    calculate_accuracy s actual = .error e → e = .invalidState := by
  unfold calculate_accuracy
  split
  · intro h
    simpa using h.symm
  · intro h
    simp at h

theorem filter_ds_gt_getD (l : List FRow)
    (hs : l.Pairwise (fun a b => a.ds < b.ds)) (i : Nat) (hi : i < l.length) :
    l.filter (fun r => decide ((l.getD i default).ds < r.ds)) = l.drop (i + 1) := by
  induction l generalizing i with
  | nil => simp at hi
  | cons x xs ih =>
    have hx : ∀ y ∈ xs, x.ds < y.ds := (List.pairwise_cons.mp hs).1
    cases i with
    | zero =>
      rw [List.filter_cons]
      have hself : (decide ((((x :: xs).getD 0 default)).ds < x.ds)) = false := by
        simp [List.getD]
      rw [hself]
      simp only [List.drop_succ_cons, List.drop_zero]
      apply List.filter_eq_self.mpr
      intro a ha
      simp [List.getD]
      exact hx a ha
    | succ j =>
      have hj : j < xs.length := by simpa using hi
      have hmem : xs.getD j default ∈ xs := by
        rw [List.getD_eq_getElem _ _ hj]
        exact List.getElem_mem hj
      rw [List.filter_cons]
      have hxfail : (decide (((x :: xs).getD (j + 1) default).ds < x.ds)) = false := by
        have : (x :: xs).getD (j + 1) default = xs.getD j default := by
          simp [List.getD]
        rw [this]
        simp only [decide_eq_false_iff_not, not_lt]
        exact le_of_lt (hx _ hmem)
      rw [hxfail]
      have hrest := ih (List.Pairwise.of_cons hs) j hj
      have hpred : ((x :: xs).getD (j + 1) default) = xs.getD j default := by
        simp [List.getD]
      simp only [hpred, List.drop_succ_cons]
      exact hrest

/-! ### Claim theorems -/

/-- C9: the `use_ensemble` flag has no influence on the result of
`get_revenue_forecast` or of `get_forecast_comparison` — both functions
overwrite it to `False` before consulting it, so every input takes the
same Prophet path with the same tuned parameters. -/
theorem use_ensemble_no_influence :
    (∀ o revenue_df periods freq include_history seasonality_mode,
      get_revenue_forecast o revenue_df periods freq include_history
          seasonality_mode true
        = get_revenue_forecast o revenue_df periods freq include_history
          seasonality_mode false)
    ∧ (∀ o revenue_df,
      get_forecast_comparison o revenue_df true
        = get_forecast_comparison o revenue_df false) :=
  ⟨fun _ _ _ _ _ _ => rfl, fun _ _ => rfl⟩

/-- C2 counterexample: a table with a non-numeric entry in the value
column (`y = none` after `errors='coerce'`) is processed without any
error: `prepare_data` returns normally and the malformed row has been
silently dropped — contradicting the claimed error propagation. -/
theorem non_numeric_value_silently_dropped :
    prepare_data [⟨0, some 1⟩, ⟨1, none⟩, ⟨2, some 3⟩] false false
      = ⟨[⟨0, 1, false⟩, ⟨2, 3, false⟩], false⟩ := rfl

/-- C2 amended: `prepare_data` never fails on a non-numeric value entry;
the coercion turns it into a null and `dropna` silently removes exactly
those rows, keeping all numerically-valued rows. -/
theorem prepare_data_drops_non_numeric (df : List RawRow) :
    (prepare_data df false false).rows = sortByDs (plainRows (dropna df))
    ∧ ∀ d y, ((d, y) ∈ dropna df ↔ (⟨d, some y⟩ : RawRow) ∈ df) := by
  refine ⟨rfl, fun d y => ?_⟩
  simp only [dropna, List.mem_filterMap]
  constructor
  · rintro ⟨r, hr, hmap⟩
    cases hy : r.y with
    | none => rw [hy] at hmap; simp at hmap
    | some v =>
      rw [hy] at hmap
      simp only [Option.map_some', Option.some.injEq, Prod.mk.injEq] at hmap
      obtain ⟨rfl, rfl⟩ := hmap
      cases r
      simp_all
  · intro h
    exact ⟨⟨d, some y⟩, h, rfl⟩

/-- C3 (code bug): after `train` returns on a frame carrying `is_spike`,
the caller's dataframe is not unchanged — it has gained a `dow` column,
because `df['dow'] = ...` mutates the shared object while the subsequent
`df.drop('dow', axis=1)` only rebinds the local name to a copy. -/
theorem train_mutates_caller_frame :
    train_input_frame_after spikeColFrame
        = [("ds", [0, 1]), ("y", [10, 20]), ("is_spike", [0, 1]), ("dow", [3, 4])]
    ∧ train_input_frame_after spikeColFrame ≠ spikeColFrame := by
  refine ⟨rfl, ?_⟩
  decide

/-- C7: `predict` called before a completed `train` fails with the
invalid-state error, leaving the state untouched and never consulting the
model oracle; `get_forecast_summary` and `calculate_accuracy` fail the
same way while no forecast exists; the initial state has no forecast, and
no method call changes `forecast_df` other than a `predict` that completed
on a trained state — so both fail before any completed `predict`. -/
theorem state_precondition_guards :
    (∀ o periods freq s, s.trained = false →
        SalesForecaster.predict o periods freq s = (s, .error .invalidState))
    ∧ (∀ s, s.forecast_df = none →
        get_forecast_summary s = .error .invalidState)
    ∧ (∀ s actual, s.forecast_df = none →
        calculate_accuracy s actual = .error .invalidState)
    ∧ SalesForecaster.init.forecast_df = none
    ∧ (∀ o s op, (step o s op).forecast_df = s.forecast_df ∨
        ∃ periods freq rows, op = .predictOp periods freq ∧ s.trained = true ∧
          (SalesForecaster.predict o periods freq s).2 = .ok rows ∧
          (step o s op).forecast_df = some rows) := by
  refine ⟨?_, ?_, ?_, rfl, ?_⟩
  · intro o periods freq s h
    simp [SalesForecaster.predict, h]
  · intro s h
    simp [get_forecast_summary, h]
  · intro s actual h
    simp [calculate_accuracy, h]
  · intro o s op
    cases op with
    | trainOp p df =>
      left
      simp only [step, SalesForecaster.train]
      split
      all_goals split
      all_goals rfl
    | predictOp periods freq =>
      by_cases h : s.trained = false
      · left
        simp [step, SalesForecaster.predict, h]
      · cases hm : s.model with
        | none => left; simp [step, SalesForecaster.predict, h, hm]
        | some md =>
          by_cases hp : o.predictOk md periods freq = true
          · right
            refine ⟨periods, freq, o.predictRows md periods freq, rfl, ?_, ?_, ?_⟩
            · revert h; cases s.trained <;> simp
            · simp [SalesForecaster.predict, h, hm, hp]
            · simp [step, SalesForecaster.predict, h, hm, hp]
          · left
            simp [step, SalesForecaster.predict, h, hm, hp]
    | summaryOp => left; rfl
    | accuracyOp actual => left; rfl
    | getDfOp b => left; rfl

/-- Witness for C7: the guard theorems applied to the freshly initialized
forecaster. -/
theorem state_precondition_guards_witness :
    SalesForecaster.init.trained = false
    ∧ SalesForecaster.predict okOracle 30 "D" SalesForecaster.init
        = (SalesForecaster.init, .error .invalidState)
    ∧ SalesForecaster.init.forecast_df = none
    ∧ get_forecast_summary SalesForecaster.init = .error .invalidState
    ∧ calculate_accuracy SalesForecaster.init [] = .error .invalidState :=
  ⟨rfl,
   state_precondition_guards.1 okOracle 30 "D" SalesForecaster.init rfl,
   rfl,
   state_precondition_guards.2.1 SalesForecaster.init rfl,
   state_precondition_guards.2.2.1 SalesForecaster.init [] rfl⟩

/-- C1 amended: for fewer than 30 distinct historical dates the product
and country orchestrators return the structured insufficient-data result
for every oracle — hence without fitting anything; the core revenue
orchestrator has no such branch: no input ever yields an
insufficient-data error, and (run against an oracle whose fit fails) the
pipeline demonstrably reaches model fitting even on a short history,
after only a logged warning. -/
theorem insufficient_data_contract :
    (∀ o df periods freq, df.length < 30 →
        get_product_forecast o df periods freq = .ok .insufficient)
    ∧ (∀ o df periods freq, df.length < 30 →
        get_country_forecast o df periods freq = .ok .insufficient)
    ∧ (∀ o df periods freq include_history seasonality_mode use_ensemble,
        get_revenue_forecast o df periods freq include_history
            seasonality_mode use_ensemble ≠ .error .insufficientData)
    ∧ (∀ df periods freq include_history seasonality_mode,
        get_revenue_forecast fitFailOracle df periods freq include_history
            seasonality_mode true = .error .fitError) := by
  refine ⟨?_, ?_, ?_, ?_⟩
  · intro o df periods freq h
    simp [get_product_forecast, h]
  · intro o df periods freq h
    simp [get_country_forecast, h]
  · intro o df periods freq ih sm ue hcontra
    have hpipe : revenueProphetPath o df periods freq ih
        = .error Err.insufficientData := by
      cases ue
      · exact hcontra
      · exact hcontra
    simp only [revenueProphetPath] at hpipe
    split at hpipe
    · rename_i heq
      simp only [Except.error.injEq] at hpipe
      have := train_error_shape o revenueTrainParams
        (prepare_data df false false) SalesForecaster.init _
        (congrArg Prod.snd heq)
      simp_all
    · split at hpipe
      · rename_i heq
        simp only [Except.error.injEq] at hpipe
        have := predict_error_shape o periods freq _ _
          (congrArg Prod.snd heq)
        simp_all
      · split at hpipe
        · rename_i heq
          simp only [Except.error.injEq] at hpipe
          have := summary_error_shape _ _ heq
          simp_all
        · split at hpipe
          · rename_i heq
            simp only [Except.error.injEq] at hpipe
            have := accuracy_error_shape _ _ _ heq
            simp_all
          · simp at hpipe
  · intro df periods freq ih sm
    rfl

/-- Witness for C1: the product and country guards applied to a concrete
29-date history. -/
theorem insufficient_data_contract_witness :
    df29.length < 30
    ∧ get_product_forecast okOracle df29 30 "D" = .ok .insufficient
    ∧ get_country_forecast okOracle df29 30 "D" = .ok .insufficient :=
  ⟨by decide,
   insufficient_data_contract.1 okOracle df29 30 "D" (by decide),
   insufficient_data_contract.2.1 okOracle df29 30 "D" (by decide)⟩

/-- C1 counterexample: on a history of 29 distinct dates the core revenue
orchestrator does not raise anything — it proceeds through preparation,
fitting and prediction and returns an ordinary forecast result. -/
theorem revenue_below_minimum_proceeds :
    df29.length = 29
    ∧ ∃ out, get_revenue_forecast okOracle df29 30 "D" true "multiplicative"
        true = .ok (some out) :=
  ⟨by decide, ⟨_, rfl⟩⟩

/-- C4: the summary statistics of `get_forecast_summary` are computed
exactly over the rows whose date strictly exceeds the final row's date
minus 30 days — a trailing window of the full output (it is a filter of
the whole table, so fitted-historical rows qualify whenever their dates
do). -/
theorem summary_window_stats (f : List FRow) (m : Option ModelData)
    (t : Bool) (hne : f ≠ []) :
    ∃ s : Summary,
      get_forecast_summary ⟨m, some f, t⟩ = .ok s
      ∧ (∀ r : FRow, r ∈ futureWindow f
            ↔ r ∈ f ∧ (f.getLastD default).ds - 30 < r.ds)
      ∧ s.avg_predicted_value
          = ((futureWindow f).map FRow.yhat).sum / ((futureWindow f).length : ℚ)
      ∧ s.total_predicted_value = ((futureWindow f).map FRow.yhat).sum
      ∧ s.min_predicted_value = minQ ((futureWindow f).map FRow.yhat)
      ∧ s.max_predicted_value = maxQ ((futureWindow f).map FRow.yhat)
      ∧ s.avg_uncertainty
          = ((futureWindow f).map (fun r => r.yhat_upper - r.yhat_lower)).sum
              / ((futureWindow f).length : ℚ) := by
  cases f with
  | nil => exact absurd rfl hne
  | cons a as =>
    refine ⟨_, rfl, ?_, by simp [meanQ], rfl, rfl, rfl, by simp [meanQ]⟩
    intro r
    simp [futureWindow, List.mem_filter]

/-- Witness for C4 at a one-row forecast table. -/
theorem summary_window_stats_witness :
    ([fRow1] ≠ [])
    ∧ ∃ s : Summary,
      get_forecast_summary ⟨none, some [fRow1], false⟩ = .ok s
      ∧ (∀ r : FRow, r ∈ futureWindow [fRow1]
            ↔ r ∈ [fRow1] ∧ (([fRow1].getLastD default).ds - 30 < r.ds))
      ∧ s.avg_predicted_value
          = ((futureWindow [fRow1]).map FRow.yhat).sum
              / ((futureWindow [fRow1]).length : ℚ)
      ∧ s.total_predicted_value = ((futureWindow [fRow1]).map FRow.yhat).sum
      ∧ s.min_predicted_value = minQ ((futureWindow [fRow1]).map FRow.yhat)
      ∧ s.max_predicted_value = maxQ ((futureWindow [fRow1]).map FRow.yhat)
      ∧ s.avg_uncertainty
          = ((futureWindow [fRow1]).map
              (fun r => r.yhat_upper - r.yhat_lower)).sum
              / ((futureWindow [fRow1]).length : ℚ) :=
  ⟨List.cons_ne_nil _ _,
   summary_window_stats [fRow1] none false (List.cons_ne_nil _ _)⟩

/-- C8: `trend_direction` is `increasing` exactly when the trend at the
window's last row strictly exceeds the trend at the window's first row,
`decreasing` in every other case, and never anything else. -/
theorem trend_direction_dichotomy (f : List FRow) (m : Option ModelData)
    (t : Bool) (hne : f ≠ []) :
    ∃ s : Summary,
      get_forecast_summary ⟨m, some f, t⟩ = .ok s
      ∧ (s.trend_direction = "increasing"
          ↔ ((futureWindow f).headD default).trend
              < ((futureWindow f).getLastD default).trend)
      ∧ (s.trend_direction = "decreasing"
          ↔ ¬ ((futureWindow f).headD default).trend
              < ((futureWindow f).getLastD default).trend)
      ∧ (s.trend_direction = "increasing" ∨ s.trend_direction = "decreasing") := by
  cases f with
  | nil => exact absurd rfl hne
  | cons a as =>
    refine ⟨_, rfl, ?_, ?_, ?_⟩
    · by_cases h : ((futureWindow (a :: as)).headD default).trend
          < ((futureWindow (a :: as)).getLastD default).trend
      all_goals
        simp only [List.headD_eq_head?, List.getLastD_eq_getLast?] at h
      all_goals
        simp [get_forecast_summary, h, List.headD_eq_head?,
          List.getLastD_eq_getLast?]
    · by_cases h : ((futureWindow (a :: as)).headD default).trend
          < ((futureWindow (a :: as)).getLastD default).trend
      all_goals
        simp only [List.headD_eq_head?, List.getLastD_eq_getLast?] at h
      all_goals
        simp [get_forecast_summary, h, List.headD_eq_head?,
          List.getLastD_eq_getLast?]
    · by_cases h : ((futureWindow (a :: as)).headD default).trend
          < ((futureWindow (a :: as)).getLastD default).trend
      all_goals
        simp only [List.headD_eq_head?, List.getLastD_eq_getLast?] at h
      · left
        simp [get_forecast_summary, h, List.headD_eq_head?,
          List.getLastD_eq_getLast?]
      · right
        simp [get_forecast_summary, h, List.headD_eq_head?,
          List.getLastD_eq_getLast?]

/-- Witness for C8 at a one-row forecast table. -/
theorem trend_direction_dichotomy_witness :
    (rows3 ≠ [])
    ∧ ∃ s : Summary,
      get_forecast_summary ⟨none, some rows3, false⟩ = .ok s
      ∧ (s.trend_direction = "increasing"
          ↔ ((futureWindow rows3).headD default).trend
              < ((futureWindow rows3).getLastD default).trend)
      ∧ (s.trend_direction = "decreasing"
          ↔ ¬ ((futureWindow rows3).headD default).trend
              < ((futureWindow rows3).getLastD default).trend)
      ∧ (s.trend_direction = "increasing" ∨ s.trend_direction = "decreasing") :=
  ⟨List.cons_ne_nil _ _,
   trend_direction_dichotomy rows3 none false (List.cons_ne_nil _ _)⟩

/-- C10: on a forecast table with strictly increasing dates,
`get_forecast_dataframe` with `future_only` returns exactly the last 30
rows when the table has more than 30 rows (the cut sits at the
31st-from-last row's date, independent of the horizon `predict` used),
and every row except the first when it has 30 or fewer rows. -/
theorem forecast_dataframe_future_cut (rows : List FRow)
    (m : Option ModelData) (t : Bool) (hne : rows ≠ [])
    (hsorted : rows.Pairwise (fun a b => a.ds < b.ds)) :
    get_forecast_dataframe ⟨m, some rows, t⟩ true
      = .ok ((if 30 < rows.length then rows.drop (rows.length - 30)
              else rows.drop 1).map toOutRow) := by
  cases rows with
  | nil => exact absurd rfl hne
  | cons a as =>
    by_cases hlen : 30 < (a :: as).length
    · have hi : (a :: as).length - 31 < (a :: as).length := by
        simp only [List.length_cons]
        omega
      have hfil := filter_ds_gt_getD (a :: as) hsorted ((a :: as).length - 31) hi
      have harith : (a :: as).length - 31 + 1 = (a :: as).length - 30 := by
        simp only [List.length_cons] at hlen ⊢
        omega
      rw [harith] at hfil
      simp only [get_forecast_dataframe, eq_self_iff_true, if_true,
        if_pos hlen, hfil]
    · have hi : 0 < (a :: as).length := by simp
      have hfil : (a :: as).filter
            (fun r => decide (((a :: as).getD 0 default).ds < r.ds))
          = (a :: as).drop 1 :=
        filter_ds_gt_getD (a :: as) hsorted 0 hi
      have hhead : ((a :: as).headD default) = ((a :: as).getD 0 default) := rfl
      simp only [get_forecast_dataframe, eq_self_iff_true, if_true,
        if_neg hlen, hhead, hfil]

/-- Witness for C10 at a three-row strictly increasing forecast table. -/
theorem forecast_dataframe_future_cut_witness :
    (rows3 ≠ [] ∧ rows3.Pairwise (fun a b => a.ds < b.ds))
    ∧ get_forecast_dataframe ⟨none, some rows3, false⟩ true
        = .ok ((if 30 < rows3.length then rows3.drop (rows3.length - 30)
                else rows3.drop 1).map toOutRow) :=
  ⟨⟨List.cons_ne_nil _ _, by norm_num [rows3, List.pairwise_cons]⟩,
   forecast_dataframe_future_cut rows3 none false (List.cons_ne_nil _ _)
     (by norm_num [rows3, List.pairwise_cons])⟩

theorem no_spike_of_mem_sort_plain {r : PRow} {pts : List (Date × ℚ)}
    (h : r ∈ sortByDs (plainRows pts)) : r.is_spike = false := by
  rw [mem_sortByDs] at h
  obtain ⟨a, b, _, heq⟩ := by simpa [plainRows] using h
  rw [← heq]

/-- C5 amended: for every series with MORE than 30 points after null
dropping, with spike detection enabled and outlier removal disabled,
`prepare_data` retains every point and flags as `is_spike` exactly the
points whose value strictly exceeds the centred 7-point rolling mean plus
2 rolling standard deviations, boundary gaps filled from the global
mean/standard deviation.  (At exactly 30 points the block is skipped, and
with outlier removal enabled a flagged row can be dropped afterwards.) -/
theorem spike_detection_characterization (df : List RawRow)
    (h : 30 < (dropna df).length) :
    (prepare_data df false true).hasSpikeCol = true
    ∧ (prepare_data df false true).rows = sortByDs (spikeStep (dropna df))
    ∧ (spikeStep (dropna df)).length = (dropna df).length
    ∧ ∀ i, i < (dropna df).length →
        ((spikeStep (dropna df)).getD i default).ds
            = ((dropna df).getD i (0, 0)).1
        ∧ ((spikeStep (dropna df)).getD i default).y
            = ((dropna df).getD i (0, 0)).2
        ∧ (((spikeStep (dropna df)).getD i default).is_spike = true
            ↔ spec_spike_exceeds ((dropna df).map Prod.snd) i) := by
  refine ⟨by simp [prepare_data, h], by simp [prepare_data, spikeStage, h],
    spikeStep_length _, ?_⟩
  intro i hi
  have hlen2 : i < (spikeStep (dropna df)).length := by
    rw [spikeStep_length]
    exact hi
  rw [List.getD_eq_getElem _ _ hlen2, List.getD_eq_getElem _ _ hi]
  simp only [spikeStep, List.getElem_map, List.getElem_enum]
  exact ⟨trivial, trivial, spike_flag_iff_spec _ _⟩

/-- Witness for C5 at a concrete 31-point series. -/
theorem spike_detection_characterization_witness :
    30 < (dropna df31spike).length
    ∧ ((prepare_data df31spike false true).hasSpikeCol = true
      ∧ (prepare_data df31spike false true).rows
          = sortByDs (spikeStep (dropna df31spike))
      ∧ (spikeStep (dropna df31spike)).length = (dropna df31spike).length
      ∧ ∀ i, i < (dropna df31spike).length →
          ((spikeStep (dropna df31spike)).getD i default).ds
              = ((dropna df31spike).getD i (0, 0)).1
          ∧ ((spikeStep (dropna df31spike)).getD i default).y
              = ((dropna df31spike).getD i (0, 0)).2
          ∧ (((spikeStep (dropna df31spike)).getD i default).is_spike = true
              ↔ spec_spike_exceeds ((dropna df31spike).map Prod.snd) i)) :=
  ⟨by decide, spike_detection_characterization df31spike (by decide)⟩

/-- C5 counterexample: `df30spike` has exactly 30 points and its point at
position 15 strictly exceeds the rolling threshold of the claim, yet
`prepare_data` with spike detection enabled produces no `is_spike` column
and no flagged row — the block requires strictly more than 30 points. -/
theorem spike_detection_boundary_counterexample :
    (dropna df30spike).length = 30
    ∧ spec_spike_exceeds ((dropna df30spike).map Prod.snd) 15
    ∧ (prepare_data df30spike false true).hasSpikeCol = false
    ∧ ∀ r ∈ (prepare_data df30spike false true).rows, r.is_spike = false := by
  have hys : (dropna df30spike).map Prod.snd
      = [0,0,0,0,0,0,0,0,0,0,0,0,0,0,0,1000,0,0,0,0,0,0,0,0,0,0,0,0,0,0] := rfl
  refine ⟨by decide, ?_, rfl, ?_⟩
  · apply (spike_flag_iff_spec _ _).mp
    rw [hys]
    have hw : window7
        [0,0,0,0,0,0,0,0,0,0,0,0,0,0,0,1000,0,0,0,0,0,0,0,0,0,0,0,0,0,0] 15
        = some [0,0,0,1000,0,0,0] := rfl
    have hm : rollingMeanFilled
        [0,0,0,0,0,0,0,0,0,0,0,0,0,0,0,1000,0,0,0,0,0,0,0,0,0,0,0,0,0,0] 15
        = 1000/7 := by
      rw [rollingMeanFilled, hw]
      norm_num [meanQ]
    have hv : rollingVarFilled
        [0,0,0,0,0,0,0,0,0,0,0,0,0,0,0,1000,0,0,0,0,0,0,0,0,0,0,0,0,0,0] 15
        = 1000000/7 := by
      rw [rollingVarFilled, hw]
      norm_num [sampleVar, meanQ]
    simp only [spike_flag, hm, hv]
    norm_num
  · intro r hr
    have hrows : (prepare_data df30spike false true).rows
        = sortByDs (plainRows (dropna df30spike)) := rfl
    rw [hrows] at hr
    exact no_spike_of_mem_sort_plain hr

/-- C6 amended: for every series with MORE than 30 points after null
dropping, with outlier removal enabled, `prepare_data` keeps exactly the
intermediate rows whose value lies within `[Q1 - 3*IQR, Q3 + 3*IQR]`
(Q1/Q3 the 25th/75th percentiles of the value series) and drops all
others.  (At exactly 30 points the block is skipped entirely.) -/
theorem outlier_removal_characterization (df : List RawRow) (d : Bool)
    (h : 30 < (dropna df).length) :
    (prepare_data df true d).rows = sortByDs (outlierFilter (spikeStage df d))
    ∧ ∀ r : PRow, r ∈ (prepare_data df true d).rows ↔
        (r ∈ spikeStage df d
          ∧ iqr_lower ((spikeStage df d).map PRow.y) ≤ r.y
          ∧ r.y ≤ iqr_upper ((spikeStage df d).map PRow.y)) := by
  have hlen : 30 < (spikeStage df d).length := by
    rw [spikeStage_length]
    exact h
  have hrows : (prepare_data df true d).rows
      = sortByDs (outlierFilter (spikeStage df d)) := by
    simp [prepare_data, hlen]
  refine ⟨hrows, fun r => ?_⟩
  rw [hrows, mem_sortByDs]
  simp [outlierFilter, List.mem_filter]

/-- Witness for C6 at a concrete 31-point series. -/
theorem outlier_removal_characterization_witness :
    30 < (dropna df31spike).length
    ∧ ((prepare_data df31spike true false).rows
        = sortByDs (outlierFilter (spikeStage df31spike false))
      ∧ ∀ r : PRow, r ∈ (prepare_data df31spike true false).rows ↔
          (r ∈ spikeStage df31spike false
            ∧ iqr_lower ((spikeStage df31spike false).map PRow.y) ≤ r.y
            ∧ r.y ≤ iqr_upper ((spikeStage df31spike false).map PRow.y))) :=
  ⟨by decide, outlier_removal_characterization df31spike false (by decide)⟩

/-- C6 counterexample: `df30out` has exactly 30 points; its value 100 lies
far outside `[Q1 - 3*IQR, Q3 + 3*IQR] = [0, 0]`, yet with outlier removal
enabled `prepare_data` keeps that row — the block requires strictly more
than 30 points. -/
theorem outlier_removal_boundary_counterexample :
    (dropna df30out).length = 30
    ∧ ¬ (iqr_lower ((spikeStage df30out false).map PRow.y) ≤ 100
          ∧ (100 : ℚ) ≤ iqr_upper ((spikeStage df30out false).map PRow.y))
    ∧ (⟨29, 100, false⟩ : PRow) ∈ (prepare_data df30out true false).rows := by
  have hys : (spikeStage df30out false).map PRow.y
      = [0,0,0,0,0,0,0,0,0,0,0,0,0,0,0,0,0,0,0,0,0,0,0,0,0,0,0,0,0,100] := rfl
  have hsort : sortQ
      [0,0,0,0,0,0,0,0,0,0,0,0,0,0,0,0,0,0,0,0,0,0,0,0,0,0,0,0,0,(100 : ℚ)]
      = [0,0,0,0,0,0,0,0,0,0,0,0,0,0,0,0,0,0,0,0,0,0,0,0,0,0,0,0,0,100] := rfl
  have hlen : (([0,0,0,0,0,0,0,0,0,0,0,0,0,0,0,0,0,0,0,0,0,0,0,0,0,0,0,0,0,
      (100 : ℚ)] : List ℚ).length : ℚ) = 30 := by norm_num
  have hq1 : quantile
      [0,0,0,0,0,0,0,0,0,0,0,0,0,0,0,0,0,0,0,0,0,0,0,0,0,0,0,0,0,(100 : ℚ)]
      (1/4) = 0 := by
    simp only [quantile, hsort, hlen]
    have hfl : (⌊(1/4 : ℚ) * ((30 : ℚ) - 1)⌋).toNat = 7 := by
      have h7 : ⌊(1/4 : ℚ) * ((30 : ℚ) - 1)⌋ = 7 := by
        norm_num [Int.floor_eq_iff]
      rw [h7]
      rfl
    rw [hfl]
    have h1 : ([0,0,0,0,0,0,0,0,0,0,0,0,0,0,0,0,0,0,0,0,0,0,0,0,0,0,0,0,0,
        (100 : ℚ)] : List ℚ).getD 7 0 = 0 := rfl
    have h2 : ([0,0,0,0,0,0,0,0,0,0,0,0,0,0,0,0,0,0,0,0,0,0,0,0,0,0,0,0,0,
        (100 : ℚ)] : List ℚ).getD 8 0 = 0 := rfl
    rw [h1, h2]
    norm_num
  have hq3 : quantile
      [0,0,0,0,0,0,0,0,0,0,0,0,0,0,0,0,0,0,0,0,0,0,0,0,0,0,0,0,0,(100 : ℚ)]
      (3/4) = 0 := by
    simp only [quantile, hsort, hlen]
    have hfl : (⌊(3/4 : ℚ) * ((30 : ℚ) - 1)⌋).toNat = 21 := by
      have h21 : ⌊(3/4 : ℚ) * ((30 : ℚ) - 1)⌋ = 21 := by
        norm_num [Int.floor_eq_iff]
      rw [h21]
      rfl
    rw [hfl]
    have h1 : ([0,0,0,0,0,0,0,0,0,0,0,0,0,0,0,0,0,0,0,0,0,0,0,0,0,0,0,0,0,
        (100 : ℚ)] : List ℚ).getD 21 0 = 0 := rfl
    have h2 : ([0,0,0,0,0,0,0,0,0,0,0,0,0,0,0,0,0,0,0,0,0,0,0,0,0,0,0,0,0,
        (100 : ℚ)] : List ℚ).getD 22 0 = 0 := rfl
    rw [h1, h2]
    norm_num
  refine ⟨by decide, ?_, ?_⟩
  · rw [hys]
    simp only [iqr_lower, iqr_upper, hq1, hq3]
    norm_num
  · have hrows : (prepare_data df30out true false).rows
        = sortByDs (plainRows (dropna df30out)) := rfl
    rw [hrows, mem_sortByDs]
    exact List.mem_map.mpr ⟨(29, 100), by decide, rfl⟩
